import Mathlib

/-!
Shallow embedding of the Envoy bulk-booking extension:
the content script (`content.js`, the Page Agent) and the background
service worker (the Orchestrator), together with theorems checking the
specification's claims against these definitions.

DOM access, timers and the chrome messaging APIs are not expressible in a
pure embedding; they are abstracted as explicit inputs:
* a page is a list of `PageButton`s carrying the data the script reads
  from the DOM (text, disabled flag, the day-of-week that
  `getButtonDayOfWeek` derives from the container text, the label that
  `getButtonDateLabel` derives, the desk-pattern match that
  `captureAssignedDesk` finds, the confirmation modal that appears after
  the click, and the disabled/attached status at click time);
* polling loops (`waitFor`) are collapsed to their outcome: the poll
  succeeds iff the polled condition holds of the page value;
* `chrome.runtime.sendMessage` emission is modelled as appending the
  message to an event trace;
* wall-clock moments are `Instant` values carrying both the UTC calendar
  date (what `toISOString` renders) and the local calendar date and hour
  (what `getHours` / local rendering use).
-/

/-- `hay.includes(pat)` on the underlying character lists: `true` iff
`pat` occurs contiguously inside `hay`. -/
def containsAux (pat : List Char) : List Char → Bool
  | [] => pat.isEmpty
  | c :: rest => pat.isPrefixOf (c :: rest) || containsAux pat rest

/-- JavaScript `hay.includes(pat)` (substring containment). -/
def strContains (hay pat : String) : Bool :=
  containsAux pat.toList hay.toList

/-- JavaScript `toLowerCase()` (the texts involved are ASCII), written
over the character list so that it reduces in the kernel. -/
def strLower (s : String) : String :=
  ⟨s.toList.map Char.toLower⟩

/-- A whitespace character as far as JavaScript `trim()` is concerned
(the texts involved use only these). -/
def isSpaceChar (c : Char) : Bool :=
  c = ' ' || c = '\t' || c = '\n' || c = '\r'

/-- JavaScript `trim()`: strip leading and trailing whitespace, written
over the character list so that it reduces in the kernel. -/
def strTrim (s : String) : String :=
  ⟨((s.toList.dropWhile isSpaceChar).reverse.dropWhile isSpaceChar).reverse⟩

/-- JavaScript `Array.prototype.join(sep)` over strings. -/
def joinSep (sep : String) : List String → String
  | [] => ""
  | [x] => x
  | x :: xs => x ++ sep ++ joinSep sep xs

/-- JavaScript `a || d` for an optionally-present string field: `undefined`
and the empty string (both falsy) fall back to the default. -/
def jsOr (o : Option String) (d : String) : String :=
  match o with
  | Option.none => d
  | some s => if s = "" then d else s

/- ── Content script: modal handling (content.js, handleConfirmationModal) ── -/

/-- A button inside a confirmation modal: its `textContent` and disabled
flag, as read by `handleConfirmationModal`. -/
structure ModalButton where
  text : String
  disabled : Bool
deriving DecidableEq

/-- content.js `CONFIRM_KEYWORDS`. -/
def CONFIRM_KEYWORDS : List String :=
  ["confirm", "book", "schedule", "reserve", "yes", "submit", "ok"]

/-- The predicate of the `buttons.find` call in `handleConfirmationModal`:
the button's trimmed, lowercased text contains some confirmation keyword. -/
def isConfirmText (b : ModalButton) : Bool :=
  CONFIRM_KEYWORDS.any (fun kw => strContains (strLower (strTrim b.text)) kw)

/-- content.js `handleConfirmationModal`, choice step:
`confirmBtn || (buttons.length === 1 ? buttons[0] : null)` where
`confirmBtn` is the first keyword match. -/
def chooseModalButton (buttons : List ModalButton) : Option ModalButton :=
  match buttons.find? isConfirmText with
  | some b => some b
  | Option.none => if buttons.length = 1 then buttons.head? else Option.none

/- ── Content script: events it sends to the background worker ── -/

/-- A booking record pushed by the click loop:
`{ date: dateLabel || 'Booking N', desk }`. -/
structure BookingRecord where
  date : String
  desk : String
deriving DecidableEq

/-- The messages handled by the background worker's `onMessage` listener
(other than `START_BOOKING`, which is modelled by `runBooking` because it
needs the tab environment): LOG, BOOKING_PROGRESS, BOOKING_DONE,
BOOKING_NONE, BOOKING_ERROR and GET_STATE.  The `message` fields of
BOOKING_NONE / BOOKING_ERROR are optional because the handler applies a
`|| default` fallback to them. -/
inductive Ev where
  | log (level msg : String)
  | progress (current total : Nat)
  | done (total : Nat) (bookings : List BookingRecord)
  | noneFound (message : Option String)
  | error (message : Option String)
  | getState
deriving DecidableEq

/-- content.js `handleConfirmationModal`.  `modal = none` models the 3s
modal poll timing out (no dialog-like element appeared); `some buttons`
models a detected modal with the given buttons.  Returns (clicked?, the
LOG events sent while handling the modal). -/
def handleConfirmationModal (modal : Option (List ModalButton)) : Bool × List Ev :=
  match modal with
  | Option.none => (false, [Ev.log "info" "No confirmation modal detected — continuing."])
  | some buttons =>
    let evs := [Ev.log "info" "Confirmation modal detected.",
      Ev.log "info" ("Modal buttons: [" ++
        joinSep ", " (buttons.map (fun b => "\"" ++ strTrim b.text ++ "\"")) ++ "]")]
    match chooseModalButton buttons with
    | some b =>
      if !b.disabled then
        (true, evs ++ [Ev.log "info" ("Clicking modal button: \"" ++ strTrim b.text ++ "\"")])
      else
        (false, evs ++ [Ev.log "warn" "Could not find a confirm button in the modal — skipping modal."])
    | Option.none =>
      (false, evs ++ [Ev.log "warn" "Could not find a confirm button in the modal — skipping modal."])

/- ── Content script: button discovery and day filter ── -/

/-- A schedule-page button as seen by the content script.  `text` and
`disabled` are the scan-time DOM reads of `isScheduleButton`; `day` is
the value `getButtonDayOfWeek` derives from the enclosing container's
text (`none` when no weekday abbreviation or parseable date is found);
`dateLabel` is the value `getButtonDateLabel` derives (container text
minus action-label words, truncated to 40 chars, possibly empty);
`deskText` is the trimmed `(desk|table|seat|spot|space) …` match that
`captureAssignedDesk` finds in the container after the click (`none`
when the pattern is absent); `modal` is the confirmation modal appearing
after this button's click; `disabledAtClick` / `attachedAtClick` are the
re-reads `btn.disabled` / `document.contains(btn)` at click time. -/
structure PageButton where
  text : String
  disabled : Bool
  day : Option Nat
  dateLabel : String
  deskText : Option String
  modal : Option (List ModalButton)
  disabledAtClick : Bool
  attachedAtClick : Bool
deriving DecidableEq

/-- content.js `BUTTON_LABELS`. -/
def BUTTON_LABELS : List String :=
  ["schedule", "schedule desk", "book desk", "book", "reserve"]

/-- content.js `isScheduleButton`: not disabled, and the trimmed
lowercased text exactly equals one of the known labels. -/
def isScheduleButton (b : PageButton) : Bool :=
  !b.disabled && BUTTON_LABELS.any (fun label => strLower (strTrim b.text) == label)

/-- content.js `findScheduleButtons`. -/
def findScheduleButtons (page : List PageButton) : List PageButton :=
  page.filter isScheduleButton

/-- The keep/drop predicate of the `buttons.filter` in `runBulkBooking`:
empty selection keeps everything, undeterminable day keeps the button,
a determined day is kept iff selected.  (The predicate reads the loop
index only to build the skip log line, never to decide keep/drop.) -/
def dayFilterKeep (selectedDays : List Nat) (b : PageButton) : Bool :=
  if selectedDays.isEmpty then true
  else
    match b.day with
    | Option.none => true
    | some d => selectedDays.contains d

/-- The day-of-week filter (`filteredButtons` in `runBulkBooking`). -/
def dayFilter (selectedDays : List Nat) (buttons : List PageButton) : List PageButton :=
  buttons.filter (dayFilterKeep selectedDays)

/-- content.js `DAY_NAMES` (inside the filter callback). -/
def DAY_NAMES : List String := ["Sun", "Mon", "Tue", "Wed", "Thu", "Fri", "Sat"]

/-- The fire-and-forget `Skipping button …` log lines emitted by the
filter callback for each dropped button (`i` is the 0-based index). -/
def dayFilterLogsAux (selectedDays : List Nat) : List PageButton → Nat → List Ev
  | [], _ => []
  | b :: rest, i =>
    let tail := dayFilterLogsAux selectedDays rest (i + 1)
    if dayFilterKeep selectedDays b then tail
    else
      match b.day with
      | some d =>
        Ev.log "info" ("Skipping button " ++ toString (i + 1) ++ " — day " ++
          DAY_NAMES.getD d "" ++ " not in selected days") :: tail
      | Option.none => tail

/-- All skip log lines of the day filter. -/
def dayFilterLogs (selectedDays : List Nat) (buttons : List PageButton) : List Ev :=
  dayFilterLogsAux selectedDays buttons 0

/-- content.js `captureAssignedDesk`: the trimmed pattern match from the
container text, or the literal "Booked". -/
def captureAssignedDesk (deskText : Option String) : String :=
  deskText.getD "Booked"

/- ── Content script: click phase ── -/

/-- A button counts as clicked iff the click-time re-check
`btn.disabled || !document.contains(btn)` does not skip it. -/
def clickable (b : PageButton) : Bool :=
  !b.disabledAtClick && b.attachedAtClick

/-- The `for` loop of `runBulkBooking` over the filtered buttons.
`inj` injects an unhandled exception: `inj i = some m` means the DOM
interaction of iteration `i` (the `btn.click()` call) throws `m`; on a
throw the loop aborts with the events emitted so far.  Arguments: the
remaining buttons, the 0-based index `i` of the first of them, and the
`booked` counter so far; `n` is `filteredButtons.length`.  Returns
(events emitted, final booked counter, booking records produced by these
iterations, uncaught exception if any). -/
def clickPhase (inj : Nat → Option String) (n : Nat) :
    List PageButton → Nat → Nat → List Ev × Nat × List BookingRecord × Option String
  | [], _, booked => ([], booked, [], Option.none)
  | b :: rest, i, booked =>
    if b.disabledAtClick || !b.attachedAtClick then
      let ev := Ev.log "warn" ("Button " ++ toString (i + 1) ++ " is no longer available — skipping.")
      let r := clickPhase inj n rest (i + 1) booked
      (ev :: r.1, r.2)
    else
      let dateLabel := b.dateLabel
      let label := if dateLabel ≠ "" then " (\"" ++ dateLabel ++ "\")" else ""
      let clickLog := Ev.log "info" ("Clicking button " ++ toString (i + 1) ++ "/" ++ toString n ++ label)
      match inj i with
      | some m => ([clickLog], booked, [], some m)
      | Option.none =>
        let booked1 := booked + 1
        let prog := Ev.progress booked1 n
        let modalEvs := (handleConfirmationModal b.modal).2
        let desk := captureAssignedDesk b.deskText
        let rec0 : BookingRecord :=
          ⟨if dateLabel ≠ "" then dateLabel else "Booking " ++ toString booked1, desk⟩
        let r := clickPhase inj n rest (i + 1) booked1
        (clickLog :: prog :: (modalEvs ++ r.1), r.2.1, rec0 :: r.2.2.1, r.2.2.2)

/-- The log lines `runBulkBooking` emits before discovery: the active
location, the optional not-on-schedule navigation warning, and the
scanning banner of `waitForScheduleButtons`. -/
def introLogs (href : String) : List Ev :=
  [Ev.log "info" ("Content script active on: " ++ href)] ++
  (if !strContains href "/schedule" then [Ev.log "warn" "Not on /schedule — navigating…"] else []) ++
  [Ev.log "info" "Scanning page for Schedule buttons (timeout 15s)…"]

/-- content.js `runBulkBooking`.  `href` is `location.href` (navigation
to /schedule only logs; `page` is the button population visible once the
page settles).  Returns the trace of messages sent to the background
worker, and the unhandled exception escaping `runBulkBooking` if the
injected failure fired. -/
def runBulkBooking (inj : Nat → Option String) (href : String)
    (page : List PageButton) (selectedDays : List Nat) : List Ev × Option String :=
  let evs0 := introLogs href
  let buttons := findScheduleButtons page
  if buttons.isEmpty then
    (evs0 ++ [Ev.log "warn" "No Schedule buttons found after waiting. The page may require login or the desks may already be booked.",
      Ev.noneFound (some "No Schedule buttons found. Ensure you\u0027re logged in and desks are available.")],
     Option.none)
  else
    let evs0 := evs0 ++ [Ev.log "info" ("Found " ++ toString buttons.length ++
      " Schedule button(s). Filtering by selected days: [" ++
      joinSep "," (selectedDays.map toString) ++ "]")]
    let filtered := dayFilter selectedDays buttons
    let evs0 := evs0 ++ dayFilterLogs selectedDays buttons
    if filtered.isEmpty then
      (evs0 ++ [Ev.log "warn" "No buttons remain after day-of-week filter.",
        Ev.noneFound (some "No Schedule buttons matched the selected days.")],
       Option.none)
    else
      let evs0 := evs0 ++ [Ev.log "info" (toString filtered.length ++ " button(s) after day filter.")]
      let r := clickPhase inj filtered.length filtered 0 0
      match r.2.2.2 with
      | some m => (evs0 ++ r.1, some m)
      | Option.none =>
        (evs0 ++ r.1 ++ [Ev.log "success" ("All done — " ++ toString r.2.1 ++ " desk(s) scheduled."),
          Ev.done r.2.1 r.2.2.1],
         Option.none)

/-- The content script's `START_BOOKING` listener: picks
`message.selectedDays || [1,2,3,4,5]`, runs `runBulkBooking`, and the
attached `.catch` converts any unhandled rejection into an error LOG and
a BOOKING_ERROR message; nothing escapes (the second component of the
result is the exception escaping the listener). -/
def startBookingListener (inj : Nat → Option String) (href : String)
    (page : List PageButton) (selectedDays : Option (List Nat)) : List Ev × Option String :=
  let sel := selectedDays.getD [1, 2, 3, 4, 5]
  let r := runBulkBooking inj href page sel
  match r.2 with
  | Option.none => (r.1, Option.none)
  | some m =>
    (r.1 ++ [Ev.log "error" ("Unhandled error: " ++ m),
      Ev.error (some ("Unhandled error: " ++ m))],
     Option.none)

/- ── Background service worker: shared run state ── -/

/-- The four lifecycle values of the `status` field
(`idle | running | done | error`). -/
inductive Status where
  | idle
  | running
  | done
  | error
deriving DecidableEq

/-- A log entry `{ time, level, msg }` as built by `addLog`
(`time` is `toTimeString().slice(0, 8)`). -/
structure LogEntry where
  time : String
  level : String
  msg : String
deriving DecidableEq

/-- The `envoy_booking` record in `chrome.storage.session`
(background worker `defaultState`). -/
structure RunState where
  status : Status
  current : Nat
  total : Nat
  log : List LogEntry
  bookings : List BookingRecord
deriving DecidableEq

/-- Background worker `defaultState()`. -/
def defaultState : RunState :=
  ⟨Status.idle, 0, 0, [], []⟩

/-- A wall-clock moment.  `utcDate` is what
`new Date().toISOString().slice(0, 10)` renders (the UTC calendar date);
`localDate` is the local calendar date of the same moment; `localHour`
is `getHours()` (local); `timeStr` is `toTimeString().slice(0, 8)`. -/
structure Instant where
  utcDate : String
  localDate : String
  localHour : Nat
  timeStr : String
deriving DecidableEq

/-- Background worker `getTodayString()`:
`new Date().toISOString().slice(0, 10)`, i.e. the UTC calendar date. -/
def getTodayString (now : Instant) : String :=
  now.utcDate

/-- The background worker's whole observable state: the session-stored
`RunState`, the `activeTabId` RunGuard, the set of open tab ids, the
`chrome.storage.local` `lastRunDate`, the `pendingSelectedDays` module
variable, and the stream of notifications fired so far (each element a
notification message). -/
structure BgState where
  runState : RunState
  activeTabId : Option Nat
  openTabs : List Nat
  lastRunDate : Option String
  pendingSelectedDays : List Nat
  notifications : List String
deriving DecidableEq

/-- Background worker `addLog`: append one entry to the stored log. -/
def addLog (now : Instant) (level msg : String) (s : BgState) : BgState :=
  { s with runState := { s.runState with log := s.runState.log ++ [⟨now.timeStr, level, msg⟩] } }

/-- Background worker `closeTab` (`chrome.tabs.remove`, already-closed
errors swallowed): the tab disappears from the open set. -/
def closeTab (tid : Nat) (s : BgState) : BgState :=
  { s with openTabs := s.openTabs.erase tid }

/-- Background worker `showBookingNotification`: the message that the
notification carries. -/
def notificationMessage (status : String) (total : Nat) (errorMsg : String) : String :=
  if status = "error" then "Booking failed: " ++ errorMsg
  else if status = "done" && total = 0 then "No desks found to book today."
  else "Done — scheduled " ++ toString total ++ " desk(s)."

/-- The background worker's `onMessage` listener for the inbound events
LOG / BOOKING_PROGRESS / BOOKING_DONE / BOOKING_NONE / BOOKING_ERROR /
GET_STATE (the START_BOOKING case just awaits `runBooking`, modelled
separately).  `now` supplies the clock reads performed while handling. -/
def handleMsg (now : Instant) (s : BgState) (e : Ev) : BgState :=
  match e with
  | Ev.log level msg => addLog now level msg s
  | Ev.progress c t =>
    let s := { s with runState := { s.runState with status := Status.running, current := c, total := t } }
    addLog now "info" ("Scheduled " ++ toString c ++ " / " ++ toString t ++ "…") s
  | Ev.done t bs =>
    let s := { s with runState :=
      { s.runState with status := Status.done, current := t, total := t, bookings := bs } }
    let s := addLog now "success" ("Done! Successfully scheduled " ++ toString t ++ " desk(s).") s
    let s := match s.activeTabId with
      | some tid => { closeTab tid s with activeTabId := Option.none }
      | Option.none => s
    let s := { s with lastRunDate := some (getTodayString now) }
    { s with notifications := s.notifications ++ [notificationMessage "done" t ""] }
  | Ev.noneFound msg =>
    let s := { s with runState :=
      { s.runState with status := Status.done, current := 0, total := 0 } }
    let s := addLog now "warn" (jsOr msg "No Schedule buttons were found on the page.") s
    let s := match s.activeTabId with
      | some tid => { closeTab tid s with activeTabId := Option.none }
      | Option.none => s
    let s := { s with lastRunDate := some (getTodayString now) }
    { s with notifications := s.notifications ++ [notificationMessage "done" 0 ""] }
  | Ev.error msg =>
    let s := { s with runState := { s.runState with status := Status.error } }
    let s := addLog now "error" (jsOr msg "An unexpected error occurred.") s
    let s := match s.activeTabId with
      | some tid => { closeTab tid s with activeTabId := Option.none }
      | Option.none => s
    let s := { s with lastRunDate := some (getTodayString now) }
    { s with notifications := s.notifications ++
        [notificationMessage "error" 0 (jsOr msg "An unexpected error occurred.")] }
  | Ev.getState => s

/- ── Background service worker: runBooking ── -/

/-- Background worker `runBooking`, tab-load URL validation: the checks
performed on `loaded.url` after the tab completes.  `some m` is the
message of the `Error` thrown (host check first, then the
login/sign-in/auth patterns); `none` means validation passes. -/
def classifyLoadedUrl (url : String) : Option String :=
  if !strContains url "dashboard.envoy.com" then
    some "Redirected away from Envoy — are you logged in?"
  else if strContains url "/login" || strContains url "/sign-in" || strContains url "/auth" then
    some "Redirected to login page — please sign in to Envoy in Chrome first."
  else Option.none

/-- The environment a `runBooking` call interacts with:
`tabCreate` is the result of `chrome.tabs.create` (the new tab id, or
the thrown error's message); `loadOk` is whether the tab reached
`complete` within the 20s timeout; `loadedUrl` is the resolved URL
re-read after load; `send` is the result of `chrome.tabs.sendMessage`
delivering START_BOOKING to the content script. -/
structure Env where
  tabCreate : Except String Nat
  loadOk : Bool
  loadedUrl : String
  send : Except String Unit

/-- Background worker `runBooking(selectedDays)`. -/
def runBooking (env : Env) (now : Instant) (selectedDays : List Nat) (s : BgState) : BgState :=
  let s := { s with pendingSelectedDays := selectedDays }
  if s.activeTabId ≠ Option.none then
    addLog now "warn" "Booking already in progress — ignoring duplicate request." s
  else
    let s := { s with runState := { defaultState with status := Status.running, log := [] } }
    let s := addLog now "info" "Opening Envoy schedule page in background tab…" s
    match env.tabCreate with
    | Except.error m =>
      let s := { s with runState := { s.runState with status := Status.error } }
      let s := addLog now "error" ("Failed to create tab: " ++ m) s
      { s with activeTabId := Option.none }
    | Except.ok tid =>
      let s := { s with openTabs := s.openTabs ++ [tid], activeTabId := some tid }
      let s := addLog now "info" ("Background tab created (id=" ++ toString tid ++ ").") s
      let s := addLog now "info" "Waiting for page to load…" s
      if !env.loadOk then
        let s := { s with runState := { s.runState with status := Status.error } }
        let s := addLog now "error" "Tab load timed out" s
        let s := closeTab tid s
        { s with activeTabId := Option.none }
      else
        let s := addLog now "info" ("Page loaded. URL: " ++ env.loadedUrl) s
        match classifyLoadedUrl env.loadedUrl with
        | some m =>
          let s := { s with runState := { s.runState with status := Status.error } }
          let s := addLog now "error" m s
          let s := closeTab tid s
          { s with activeTabId := Option.none }
        | Option.none =>
          let s := addLog now "info" "Sending booking command to page…" s
          match env.send with
          | Except.ok _ => s
          | Except.error m =>
            let s := { s with runState := { s.runState with status := Status.error } }
            let s := addLog now "error" ("Could not communicate with content script: " ++ m) s
            let s := closeTab tid s
            { s with activeTabId := Option.none }

/- ── Background service worker: daily auto-run ── -/

/-- The persisted `chrome.storage.local` configuration read by the
auto-run listeners. -/
structure StoredLocal where
  lastRunDate : Option String
  selectedDays : Option (List Nat)
deriving DecidableEq

/-- The `chrome.runtime.onStartup` listener: returns the `selectedDays`
with which `runBooking` is invoked, or `none` when no auto-run fires
(`scheduleNextAlarm` is timer plumbing and out of scope).  The code
requires `getHours() >= 8` (local) and `lastRunDate !== getTodayString()`
(UTC date comparison). -/
def onStartupAutoRun (now : Instant) (stored : StoredLocal) : Option (List Nat) :=
  if 8 ≤ now.localHour then
    if stored.lastRunDate = some (getTodayString now) then Option.none
    else some (stored.selectedDays.getD [1, 2, 3, 4, 5])
  else Option.none

/-- The `chrome.alarms.onAlarm` listener: ignores alarms other than
`dailyBooking`; otherwise fires iff `lastRunDate !== getTodayString()`
(no time-of-day check here). -/
def onAlarmAutoRun (alarmName : String) (now : Instant) (stored : StoredLocal) : Option (List Nat) :=
  if alarmName ≠ "dailyBooking" then Option.none
  else if stored.lastRunDate = some (getTodayString now) then Option.none
  else some (stored.selectedDays.getD [1, 2, 3, 4, 5])

/- ── Spec-side definitions used to state the claims ── -/

/-- The three classification outcomes named by the spec for the post-load
URL check. -/
inductive RedirectCause where
  | authFailure
  | navigationFailure
  | proceed
deriving DecidableEq

/-- The code's URL classification mapped onto the spec's causes: the
AuthFailure message is the login one, any other thrown message is the
NavigationFailure one, no message means the run proceeds. -/
def codeCause (url : String) : RedirectCause :=
  match classifyLoadedUrl url with
  | Option.none => RedirectCause.proceed
  | some m =>
    if m = "Redirected to login page — please sign in to Envoy in Chrome first." then
      RedirectCause.authFailure
    else RedirectCause.navigationFailure

/-- Modelled from the spec (claim C3 as amended): the host check comes
first — an address without the expected host marker is a
NavigationFailure even if it contains a login path fragment; on the
expected host, a login/sign-in/auth fragment is an AuthFailure;
otherwise the run proceeds. -/
def classifySpec (url : String) : RedirectCause :=
  if !strContains url "dashboard.envoy.com" then RedirectCause.navigationFailure
  else if strContains url "/login" || strContains url "/sign-in" || strContains url "/auth" then
    RedirectCause.authFailure
  else RedirectCause.proceed

/-- Modelled from the spec (claim C9 as stated): the startup auto-run
should fire exactly when the local time is at/after 8:00 and the local
calendar date of the last completed run (the instant `lastRun`) differs
from the current local calendar date. -/
def specStartupFires (lastRun : Option Instant) (now : Instant) : Bool :=
  8 ≤ now.localHour &&
    match lastRun with
    | some l => l.localDate ≠ now.localDate
    | Option.none => true

/-- The invariant of claim C2 on the shared run state. -/
def RunInv (rs : RunState) : Prop :=
  (rs.total ≠ 0 → rs.current ≤ rs.total) ∧
  (rs.status = Status.done → rs.current = rs.total)

/-- Validity of a content-script message for the progress invariant:
every BOOKING_PROGRESS the content script emits has `1 ≤ current ≤ total`. -/
def validEv : Ev → Prop
  | Ev.progress c t => 1 ≤ c ∧ c ≤ t
  | _ => True

/-- Whether a message is a plain LOG event. -/
def evIsLog : Ev → Bool
  | Ev.log _ _ => true
  | _ => false

/-- Whether a message is a BOOKING_DONE event. -/
def evIsDone : Ev → Bool
  | Ev.done _ _ => true
  | _ => false

/-- The no-op shape of a guarded duplicate `runBooking` call (claim C1):
every stored RunState field except the log is unchanged, the log gains
exactly the duplicate-request warning, and the guard, tab set, stored
date and notification stream are untouched. -/
def guardedNoOp (now : Instant) (s s2 : BgState) : Prop :=
  s2.runState.status = s.runState.status ∧
  s2.runState.current = s.runState.current ∧
  s2.runState.total = s.runState.total ∧
  s2.runState.bookings = s.runState.bookings ∧
  s2.runState.log = s.runState.log ++
    [⟨now.timeStr, "warn", "Booking already in progress — ignoring duplicate request."⟩] ∧
  s2.activeTabId = s.activeTabId ∧
  s2.openTabs = s.openTabs ∧
  s2.lastRunDate = s.lastRunDate ∧
  s2.notifications = s.notifications

/-- The effects claim C7 requires of a terminal event handled while a run
is in flight (tab `tid` owned by the guard): terminal status, tab closed,
guard cleared, last-run date persisted, notification fired with the given
wording. -/
def terminalEffects (now : Instant) (s s2 : BgState) (tid : Nat) (st : Status) (notif : String) : Prop :=
  s2.runState.status = st ∧
  s2.activeTabId = Option.none ∧
  s2.openTabs = s.openTabs.erase tid ∧
  s2.lastRunDate = some (getTodayString now) ∧
  s2.notifications = s.notifications ++ [notif]

/- ── Concrete inputs used by witnesses and counterexamples ── -/

/-- A page with one enabled Schedule button and no determinable day. -/
def pageOne : List PageButton :=
  [⟨"Schedule", false, Option.none, "Mon Jan 6", Option.none, Option.none, false, true⟩]

/-- A page with two candidates: a clickable Monday one and a Tuesday one
that is disabled again by click time. -/
def pageTwo : List PageButton :=
  [⟨"Schedule", false, some 1, "Mon", Option.none, Option.none, false, true⟩,
   ⟨"Book", false, some 2, "Tue", Option.none, Option.none, true, true⟩]

/-- A candidate whose day is determined to be Monday. -/
def mondayButton : PageButton :=
  ⟨"Schedule", false, some 1, "Mon", Option.none, Option.none, false, true⟩

/-- No injected exception: every DOM interaction succeeds. -/
def injNone : Nat → Option String := fun _ => Option.none

/-- An injected exception: the first click throws "boom". -/
def injBoom : Nat → Option String := fun i => if i = 0 then some "boom" else Option.none

/-- The schedule-page address. -/
def href0 : String := "https://dashboard.envoy.com/schedule"

/-- A fresh background-worker state: default run state, no guard, no
tabs, nothing persisted. -/
def initialBg : BgState := ⟨defaultState, Option.none, [], Option.none, [1, 2, 3, 4, 5], []⟩

/-- A background-worker state with a run in flight owning tab 7. -/
def busyBg : BgState :=
  { initialBg with
    activeTabId := some 7
    openTabs := [7]
    runState := { defaultState with status := Status.running } }

/-- A benign environment: the tab opens as id 9, loads in time, resolves
to the schedule address, and the start command is delivered. -/
def env0 : Env := ⟨Except.ok 9, true, "https://dashboard.envoy.com/schedule", Except.ok ()⟩

/-- A moment late on 1 Nov local time whose UTC calendar date is already
2 Nov (a negative UTC offset): a run completing here stores
`lastRunDate = "2025-11-02"`. -/
def lastRunInstant : Instant := ⟨"2025-11-02", "2025-11-01", 23, "23:30:00"⟩

/-- The next local morning, 2 Nov 09:00 local, still 2 Nov in UTC. -/
def startupInstant : Instant := ⟨"2025-11-02", "2025-11-02", 9, "09:00:00"⟩

/-- Modal buttons used in the claim's concrete cases. -/
def cancelBtn : ModalButton := ⟨"Cancel", false⟩

/-- The confirm button of the claim's first concrete case. -/
def confirmBookingBtn : ModalButton := ⟨"Confirm Booking", false⟩

/-- The sole button of the claim's second concrete case. -/
def dismissBtn : ModalButton := ⟨"Dismiss", false⟩

/- ── Helper lemmas ── -/

theorem isPrefixOf_self (l : List Char) : l.isPrefixOf l = true := by
  induction l with
  | nil => rfl
  | cons c cs ih => simp [List.isPrefixOf, ih]

theorem containsAux_append (pat : List Char) : ∀ l : List Char, containsAux pat (l ++ pat) = true := by
  intro l
  induction l with
  | nil =>
    cases pat with
    | nil => rfl
    | cons c cs => simp [containsAux, isPrefixOf_self]
  | cons c cs ih => simp [containsAux, ih]

theorem strContains_append (s t : String) : strContains (s ++ t) t = true := by
  have h : (s ++ t).toList = s.toList ++ t.toList := by
    simp [String.toList, String.data_append]
  simp [strContains, h, containsAux_append]

theorem addLog_activeTabId (now : Instant) (level msg : String) (s : BgState) :
    (addLog now level msg s).activeTabId = s.activeTabId := rfl

theorem evIsLog_valid (e : Ev) (h : evIsLog e = true) : validEv e := by
  cases e <;> simp [evIsLog] at h <;> trivial

theorem evIsLog_ne_done (e : Ev) (h : evIsLog e = true) (t : Nat) (bs : List BookingRecord) :
    e ≠ Ev.done t bs := by
  cases e <;> simp [evIsLog] at h <;> simp

theorem modal_evs_isLog (modal : Option (List ModalButton)) :
    ∀ e ∈ (handleConfirmationModal modal).2, evIsLog e = true := by
  intro e he
  cases modal with
  | none =>
    simp [handleConfirmationModal] at he
    simp [he, evIsLog]
  | some buttons =>
    rcases h : chooseModalButton buttons with _ | b
    · simp [handleConfirmationModal, h] at he
      rcases he with he | he | he <;> simp [he, evIsLog]
    · by_cases hd : b.disabled
      · simp [handleConfirmationModal, h, hd] at he
        rcases he with he | he | he <;> simp [he, evIsLog]
      · simp [handleConfirmationModal, h, hd] at he
        rcases he with he | he | he <;> simp [he, evIsLog]

theorem introLogs_isLog (href : String) : ∀ e ∈ introLogs href, evIsLog e = true := by
  intro e he
  by_cases h : strContains href "/schedule" = true
  · simp [introLogs, h] at he
    rcases he with he | he <;> simp [he, evIsLog]
  · simp [introLogs, h] at he
    rcases he with he | he | he <;> simp [he, evIsLog]

theorem dayFilterLogsAux_isLog (days : List Nat) :
    ∀ (l : List PageButton) (i : Nat), ∀ e ∈ dayFilterLogsAux days l i, evIsLog e = true := by
  intro l
  induction l with
  | nil => intro i e he; simp [dayFilterLogsAux] at he
  | cons b rest ih =>
    intro i e he
    by_cases hk : dayFilterKeep days b = true
    · simp [dayFilterLogsAux, hk] at he
      exact ih (i + 1) e he
    · rcases hd : b.day with _ | d
      · simp [dayFilterLogsAux, hk, hd] at he
        exact ih (i + 1) e he
      · simp [dayFilterLogsAux, hk, hd] at he
        rcases he with he | he
        · simp [he, evIsLog]
        · exact ih (i + 1) e he

theorem clickable_false_of_skip (b : PageButton) (h : (b.disabledAtClick || !b.attachedAtClick) = true) :
    clickable b = false := by
  cases hd : b.disabledAtClick <;> cases ha : b.attachedAtClick <;>
    simp [clickable, hd, ha] <;> simp [hd, ha] at h

theorem clickable_true_of_noskip (b : PageButton) (h : ¬(b.disabledAtClick || !b.attachedAtClick) = true) :
    clickable b = true := by
  cases hd : b.disabledAtClick <;> cases ha : b.attachedAtClick <;>
    simp [clickable, hd, ha] <;> simp [hd, ha] at h

theorem clickPhase_evs_valid (inj : Nat → Option String) (n : Nat) :
    ∀ (l : List PageButton) (i booked : Nat), booked + l.length ≤ n →
      ∀ e ∈ (clickPhase inj n l i booked).1, validEv e ∧ evIsDone e = false := by
  intro l
  induction l with
  | nil => intro i booked hb e he; simp [clickPhase] at he
  | cons b rest ih =>
    intro i booked hb e he
    simp only [List.length_cons] at hb
    by_cases hskip : (b.disabledAtClick || !b.attachedAtClick) = true
    · simp [clickPhase, hskip] at he
      rcases he with he | he
      · constructor <;> simp [he, validEv, evIsDone]
      · exact ih (i + 1) booked (by omega) e he
    · rcases hinj : inj i with _ | m
      · simp [clickPhase, hskip, hinj] at he
        rcases he with he | he | he | he
        · constructor <;> simp [he, validEv, evIsDone]
        · constructor <;> simp [he, validEv, evIsDone] <;> omega
        · have := modal_evs_isLog b.modal e he
          exact ⟨evIsLog_valid e this, by cases e <;> simp [evIsLog] at this <;> simp [evIsDone]⟩
        · exact ih (i + 1) (booked + 1) (by omega) e he
      · simp [clickPhase, hskip, hinj] at he
        constructor <;> simp [he, validEv, evIsDone]

theorem clickPhase_counts (inj : Nat → Option String) (n : Nat) :
    ∀ (l : List PageButton) (i booked : Nat),
      (clickPhase inj n l i booked).2.2.2 = Option.none →
      (clickPhase inj n l i booked).2.1 = booked + (l.filter clickable).length ∧
      (clickPhase inj n l i booked).2.2.1.length = (l.filter clickable).length := by
  intro l
  induction l with
  | nil => intro i booked _; simp [clickPhase]
  | cons b rest ih =>
    intro i booked h
    by_cases hskip : (b.disabledAtClick || !b.attachedAtClick) = true
    · have hcl := clickable_false_of_skip b hskip
      simp [clickPhase, hskip] at h ⊢
      simp [List.filter_cons, hcl]
      exact ih (i + 1) booked h
    · have hcl := clickable_true_of_noskip b hskip
      rcases hinj : inj i with _ | m
      · simp [clickPhase, hskip, hinj] at h ⊢
        simp [List.filter_cons, hcl]
        obtain ⟨h1, h2⟩ := ih (i + 1) (booked + 1) h
        exact ⟨by omega, by omega⟩
      · simp [clickPhase, hskip, hinj] at h

theorem handleMsg_inv (now : Instant) (s : BgState) (e : Ev) (hv : validEv e)
    (h : RunInv s.runState) : RunInv (handleMsg now s e).runState := by
  cases e with
  | log lv m => simpa [handleMsg, addLog, RunInv] using h
  | progress c t =>
    obtain ⟨h1, h2⟩ := hv
    simp [handleMsg, addLog, RunInv]
    exact fun _ => h2
  | done t bs =>
    cases htab : s.activeTabId <;> simp [handleMsg, addLog, closeTab, RunInv, htab]
  | noneFound m =>
    cases htab : s.activeTabId <;> simp [handleMsg, addLog, closeTab, RunInv, htab]
  | error m =>
    cases htab : s.activeTabId <;> simp [handleMsg, addLog, closeTab, RunInv, htab] <;> exact h.1
  | getState => exact h

theorem runBooking_inv (env : Env) (now : Instant) (days : List Nat) (s : BgState)
    (h : RunInv s.runState) : RunInv (runBooking env now days s).runState := by
  by_cases hg : s.activeTabId = Option.none
  · rcases htc : env.tabCreate with m | tid
    · simp [runBooking, hg, htc, RunInv, addLog, defaultState]
    · cases hl : env.loadOk
      · simp [runBooking, hg, htc, hl, RunInv, addLog, closeTab, defaultState]
      · rcases hcl : classifyLoadedUrl env.loadedUrl with _ | m
        · rcases hs : env.send with m2 | u
          · simp [runBooking, hg, htc, hl, hcl, hs, RunInv, addLog, closeTab, defaultState]
          · simp [runBooking, hg, htc, hl, hcl, hs, RunInv, addLog, defaultState]
        · simp [runBooking, hg, htc, hl, hcl, RunInv, addLog, closeTab, defaultState]
  · simpa [runBooking, hg, RunInv, addLog] using h

theorem runBulk_valid (inj : Nat → Option String) (href : String)
    (page : List PageButton) (days : List Nat) :
    ∀ e ∈ (runBulkBooking inj href page days).1, validEv e := by
  intro e he
  by_cases h1 : (findScheduleButtons page).isEmpty = true
  · simp [runBulkBooking, h1] at he
    rcases he with he | he | he
    · exact evIsLog_valid e (introLogs_isLog href e he)
    · simp [he, validEv]
    · simp [he, validEv]
  · by_cases h2 : (dayFilter days (findScheduleButtons page)).isEmpty = true
    · simp [runBulkBooking, h1, h2] at he
      rcases he with he | he | he | he | he
      · exact evIsLog_valid e (introLogs_isLog href e he)
      · simp [he, validEv]
      · exact evIsLog_valid e (dayFilterLogsAux_isLog days _ 0 e he)
      · simp [he, validEv]
      · simp [he, validEv]
    · rcases h3 : (clickPhase inj (dayFilter days (findScheduleButtons page)).length
        (dayFilter days (findScheduleButtons page)) 0 0).2.2.2 with _ | m
      · simp [runBulkBooking, h1, h2, h3] at he
        rcases he with he | he | he | he | he | he
        · exact evIsLog_valid e (introLogs_isLog href e he)
        · simp [he, validEv]
        · exact evIsLog_valid e (dayFilterLogsAux_isLog days _ 0 e he)
        · simp [he, validEv]
        · exact (clickPhase_evs_valid inj _ _ 0 0 (by simp) e he).1
        · rcases he with he | he
          · simp [he, validEv]
          · simp [he, validEv]
      · simp [runBulkBooking, h1, h2, h3] at he
        rcases he with he | he | he | he | he
        · exact evIsLog_valid e (introLogs_isLog href e he)
        · simp [he, validEv]
        · exact evIsLog_valid e (dayFilterLogsAux_isLog days _ 0 e he)
        · simp [he, validEv]
        · exact (clickPhase_evs_valid inj _ _ 0 0 (by simp) e he).1

/- ── Claim theorems ── -/

/-- C1: a `startRun` (`runBooking`) call made while a run is already in
flight (the RunGuard `activeTabId` is set) never mutates the shared run
state and never opens a second tab: every stored RunState field is
unchanged apart from the log gaining exactly the duplicate-request
warning, and the guard, tab set, persisted date and notification stream
are untouched — no queueing, no preemption. -/
theorem spec_c1 (env : Env) (now : Instant) (days : List Nat) (s : BgState)
    (h : s.activeTabId ≠ Option.none) :
    guardedNoOp now s (runBooking env now days s) := by
  simp [runBooking, h, guardedNoOp, addLog]

theorem spec_c1_witness :
    busyBg.activeTabId ≠ Option.none ∧
    guardedNoOp startupInstant busyBg (runBooking env0 startupInstant [2] busyBg) :=
  ⟨by decide, spec_c1 env0 startupInstant [2] busyBg (by decide)⟩

/-- C3 counterexample: the resolved address "https://example.com/login"
contains the `/login` fragment, yet the code classifies it with the
"redirected away" (NavigationFailure) cause, not the AuthFailure cause
the claim requires, because the host check runs first. -/
theorem spec_c3_counterexample :
    strContains "https://example.com/login" "/login" = true ∧
    codeCause "https://example.com/login" = RedirectCause.navigationFailure ∧
    RedirectCause.navigationFailure ≠ RedirectCause.authFailure :=
  ⟨by decide, by decide, by decide⟩

/-- C3 as amended: the classification checks the host marker first — an
address not containing dashboard.envoy.com fails with the
NavigationFailure ("redirected away") cause even when it contains
`/login`, `/sign-in` or `/auth`; an address containing the host marker
and one of those fragments fails with the AuthFailure ("redirected to
login") cause; an address containing the host marker and none of the
fragments proceeds normally. -/
theorem spec_c3_amended : ∀ url : String, codeCause url = classifySpec url := by
  intro url
  have hne : ("Redirected away from Envoy — are you logged in?" : String) ≠
      "Redirected to login page — please sign in to Envoy in Chrome first." := by decide
  by_cases h1 : strContains url "dashboard.envoy.com" = true
  · by_cases h2 : (strContains url "/login" || strContains url "/sign-in" || strContains url "/auth") = true
    · simp [codeCause, classifyLoadedUrl, classifySpec, h1, h2]
    · simp [codeCause, classifyLoadedUrl, classifySpec, h1, h2]
  · simp [codeCause, classifyLoadedUrl, classifySpec, h1, hne]

/-- C4 counterexample: with the empty day selection, a candidate whose
day is determined (Monday) and is not a member of the selection is
nevertheless kept — the filter keeps everything when the selection is
empty, contradicting the claim for that selection. -/
theorem spec_c4_counterexample :
    mondayButton.day = some 1 ∧ ([] : List Nat).contains 1 = false ∧
    dayFilter [] [mondayButton] = [mondayButton] :=
  ⟨by decide, by decide, by decide⟩

/-- C4 as amended: for every *nonempty* selection of weekday integers the
day filter is pure and fail-open — a candidate whose day cannot be
determined is always kept, and a candidate whose day is determined and
not a member of the selection is always dropped, regardless of the
candidate's position in the list.  (With the empty selection the code
keeps every candidate.) -/
theorem spec_c4_amended (days : List Nat) (buttons : List PageButton) (b : PageButton)
    (hne : days ≠ []) (hmem : b ∈ buttons) :
    (b.day = Option.none → b ∈ dayFilter days buttons) ∧
    (∀ d, b.day = some d → days.contains d = false → b ∉ dayFilter days buttons) := by
  have hnemp : days.isEmpty = false := by
    cases days with
    | nil => exact absurd rfl hne
    | cons x xs => rfl
  constructor
  · intro hday
    exact List.mem_filter.mpr ⟨hmem, by simp [dayFilterKeep, hnemp, hday]⟩
  · intro d hday hcon hmemf
    have hk := (List.mem_filter.mp hmemf).2
    simp [dayFilterKeep, hnemp, hday, hcon] at hk
    have hnm : d ∉ days := by simpa using hcon
    exact hnm hk

theorem spec_c4_witness :
    (([3] : List Nat) ≠ [] ∧ mondayButton ∈ [mondayButton] ∧ ([3] : List Nat).contains 1 = false) ∧
    mondayButton ∉ dayFilter [3] [mondayButton] :=
  ⟨⟨by decide, by decide, by decide⟩,
   (spec_c4_amended [3] [mondayButton] mondayButton (by decide) (by decide)).2 1 rfl (by decide)⟩

/-- C5: modal confirm-button selection is a deterministic function of the
button texts — the first button whose lowercased text contains a
confirmation keyword is chosen; with no keyword match and exactly one
button, that sole button is chosen; otherwise nothing is chosen, no
click happens, and the could-not-find warning is logged.  In particular
["Cancel","Confirm Booking"] yields "Confirm Booking", ["Dismiss"] alone
yields "Dismiss", and ["Cancel","Dismiss"] yields nothing. -/
theorem spec_c5 :
    chooseModalButton [cancelBtn, confirmBookingBtn] = some confirmBookingBtn ∧
    chooseModalButton [dismissBtn] = some dismissBtn ∧
    chooseModalButton [cancelBtn, dismissBtn] = Option.none ∧
    (handleConfirmationModal (some [cancelBtn, dismissBtn])).1 = false ∧
    Ev.log "warn" "Could not find a confirm button in the modal — skipping modal." ∈
      (handleConfirmationModal (some [cancelBtn, dismissBtn])).2 ∧
    (∀ bs b, bs.find? isConfirmText = some b → chooseModalButton bs = some b) ∧
    (∀ bs : List ModalButton, bs.find? isConfirmText = Option.none → bs.length = 1 →
      chooseModalButton bs = bs.head?) ∧
    (∀ bs : List ModalButton, bs.find? isConfirmText = Option.none → bs.length ≠ 1 →
      chooseModalButton bs = Option.none) := by
  refine ⟨by decide, by decide, by decide, by decide, by decide, ?_, ?_, ?_⟩
  · intro bs b hf
    simp [chooseModalButton, hf]
  · intro bs hf h1
    simp [chooseModalButton, hf, h1]
  · intro bs hf h1
    simp [chooseModalButton, hf, h1]

theorem spec_c5_witness :
    ([cancelBtn, confirmBookingBtn].find? isConfirmText = some confirmBookingBtn) ∧
    chooseModalButton [cancelBtn, confirmBookingBtn] = some confirmBookingBtn :=
  ⟨by decide, spec_c5.2.2.2.2.2.1 [cancelBtn, confirmBookingBtn] confirmBookingBtn (by decide)⟩

/-- C2: for every run, in every state reachable by applying the inbound
event handlers to messages drawn from the run's trace, once `total` is
nonzero the counter `current` never exceeds `total`, and whenever
`status` is done `current` equals `total`; `runBooking` itself also
preserves this invariant. -/
theorem spec_c2 :
    (∀ (inj : Nat → Option String) (href : String) (page : List PageButton)
       (days : List Nat) (now : Instant) (s0 : BgState) (evs : List Ev),
       RunInv s0.runState →
       (∀ e ∈ evs, e ∈ (runBulkBooking inj href page days).1) →
       RunInv ((evs.foldl (handleMsg now) s0).runState)) ∧
    (∀ (env : Env) (now : Instant) (days : List Nat) (s : BgState),
       RunInv s.runState → RunInv (runBooking env now days s).runState) := by
  constructor
  · intro inj href page days now s0 evs h0 hsub
    induction evs generalizing s0 with
    | nil => exact h0
    | cons e rest ih =>
      simp only [List.foldl_cons]
      exact ih (handleMsg now s0 e)
        (handleMsg_inv now s0 e (runBulk_valid inj href page days e (hsub e (by simp))) h0)
        (fun x hx => hsub x (by simp [hx]))
  · intro env now days s h
    exact runBooking_inv env now days s h

theorem spec_c2_witness :
    RunInv initialBg.runState ∧
    RunInv (((runBulkBooking injNone href0 pageOne [1, 2, 3, 4, 5]).1.foldl
      (handleMsg startupInstant) initialBg).runState) :=
  ⟨by constructor <;> simp [initialBg, defaultState],
   spec_c2.1 injNone href0 pageOne [1, 2, 3, 4, 5] startupInstant initialBg _
     (by constructor <;> simp [initialBg, defaultState]) (fun e he => he)⟩

/-- C6: whenever `runBulkBooking` raises an unhandled failure with
message `m`, the START_BOOKING entry point of the content script catches
it, a BOOKING_ERROR event whose message carries `m` is reported, and no
exception escapes the entry point. -/
theorem spec_c6 (inj : Nat → Option String) (href : String) (page : List PageButton)
    (selectedDays : Option (List Nat)) (m : String) :
    (startBookingListener inj href page selectedDays).2 = Option.none ∧
    ((runBulkBooking inj href page (selectedDays.getD [1, 2, 3, 4, 5])).2 = some m →
      Ev.error (some ("Unhandled error: " ++ m)) ∈
        (startBookingListener inj href page selectedDays).1 ∧
      strContains ("Unhandled error: " ++ m) m = true) := by
  constructor
  · rcases h : (runBulkBooking inj href page (selectedDays.getD [1, 2, 3, 4, 5])).2 with _ | m2
    · simp [startBookingListener, h]
    · simp [startBookingListener, h]
  · intro h
    refine ⟨?_, strContains_append "Unhandled error: " m⟩
    simp [startBookingListener, h]

theorem spec_c6_witness :
    (runBulkBooking injBoom href0 pageOne ((some [1, 2, 3, 4, 5]).getD [1, 2, 3, 4, 5])).2 = some "boom" ∧
    Ev.error (some ("Unhandled error: " ++ "boom")) ∈
      (startBookingListener injBoom href0 pageOne (some [1, 2, 3, 4, 5])).1 :=
  ⟨by decide, ((spec_c6 injBoom href0 pageOne (some [1, 2, 3, 4, 5]) "boom").2 (by decide)).1⟩

/-- C7: every terminal event received while a run is in flight (the
guard owns tab `tid`) sets the corresponding terminal status (done for
done/none, error for error), closes the background tab, clears the
RunGuard, persists `lastRunDate` as today's date, and fires a
notification with the matching wording (success count for a nonzero done,
zero-result wording for a zero done or a none, failure message for an
error). -/
theorem spec_c7 (now : Instant) (s : BgState) (tid : Nat) (t : Nat)
    (bs : List BookingRecord) (m1 m2 : Option String)
    (h : s.activeTabId = some tid) :
    (terminalEffects now s (handleMsg now s (Ev.done t bs)) tid Status.done
       (if t = 0 then "No desks found to book today."
        else "Done — scheduled " ++ toString t ++ " desk(s).") ∧
     (handleMsg now s (Ev.done t bs)).runState.current = t ∧
     (handleMsg now s (Ev.done t bs)).runState.total = t ∧
     (handleMsg now s (Ev.done t bs)).runState.bookings = bs) ∧
    (terminalEffects now s (handleMsg now s (Ev.noneFound m1)) tid Status.done
       "No desks found to book today." ∧
     (handleMsg now s (Ev.noneFound m1)).runState.current = 0 ∧
     (handleMsg now s (Ev.noneFound m1)).runState.total = 0) ∧
    terminalEffects now s (handleMsg now s (Ev.error m2)) tid Status.error
      ("Booking failed: " ++ jsOr m2 "An unexpected error occurred.") := by
  have hde : ("done" : String) ≠ "error" := by decide
  have hdd : ("done" : String) = "done" := rfl
  by_cases ht : t = 0 <;>
    simp [handleMsg, addLog, closeTab, terminalEffects, notificationMessage,
      h, getTodayString, hde, hdd, ht]

theorem spec_c7_witness :
    busyBg.activeTabId = some 7 ∧
    terminalEffects startupInstant busyBg
      (handleMsg startupInstant busyBg (Ev.error Option.none)) 7 Status.error
      ("Booking failed: " ++ jsOr Option.none "An unexpected error occurred.") :=
  ⟨rfl, (spec_c7 startupInstant busyBg 7 0 [] Option.none Option.none rfl).2.2⟩

/-- C8 counterexample: handlers are not idempotent on the full RunState —
processing the same LOG event twice from a fresh state leaves a log with
two entries instead of one, so the state differs from processing it
once. -/
theorem spec_c8_counterexample :
    handleMsg startupInstant (handleMsg startupInstant initialBg (Ev.log "info" "x"))
        (Ev.log "info" "x") ≠
      handleMsg startupInstant initialBg (Ev.log "info" "x") := by decide

/-- C8 as amended: duplicate delivery of any inbound event leaves the
`status`, `current`, `total` and `bookings` fields of the RunState, the
RunGuard, the tab set, and the persisted `lastRunDate` unchanged; only
the log grows by the duplicate's entries (and terminal events re-fire
the notification), so full-state idempotency fails only on those. -/
theorem spec_c8_amended (now : Instant) (s : BgState) (e : Ev) :
    (handleMsg now (handleMsg now s e) e).runState.status =
      (handleMsg now s e).runState.status ∧
    (handleMsg now (handleMsg now s e) e).runState.current =
      (handleMsg now s e).runState.current ∧
    (handleMsg now (handleMsg now s e) e).runState.total =
      (handleMsg now s e).runState.total ∧
    (handleMsg now (handleMsg now s e) e).runState.bookings =
      (handleMsg now s e).runState.bookings ∧
    (handleMsg now (handleMsg now s e) e).activeTabId =
      (handleMsg now s e).activeTabId ∧
    (handleMsg now (handleMsg now s e) e).openTabs =
      (handleMsg now s e).openTabs ∧
    (handleMsg now (handleMsg now s e) e).lastRunDate =
      (handleMsg now s e).lastRunDate := by
  cases e with
  | log lv m => simp [handleMsg, addLog]
  | progress c t => simp [handleMsg, addLog]
  | done t bs => cases h : s.activeTabId <;> simp [handleMsg, addLog, closeTab, h]
  | noneFound m => cases h : s.activeTabId <;> simp [handleMsg, addLog, closeTab, h]
  | error m => cases h : s.activeTabId <;> simp [handleMsg, addLog, closeTab, h]
  | getState => simp [handleMsg]

/-- C9 counterexample: a run completing at `lastRunInstant` (23:30 local
on 1 Nov, already 2 Nov in UTC) stores `lastRunDate = "2025-11-02"`; on
startup the next local morning (09:00 local on 2 Nov) the claim's
local-date rule says the auto-run must fire (local dates differ, time is
past 8:00), but the code compares UTC calendar dates, finds them equal,
and does not fire. -/
theorem spec_c9_counterexample :
    specStartupFires (some lastRunInstant) startupInstant = true ∧
    (handleMsg lastRunInstant busyBg (Ev.done 2 [])).lastRunDate = some "2025-11-02" ∧
    onStartupAutoRun startupInstant ⟨some "2025-11-02", Option.none⟩ = Option.none :=
  ⟨by decide, by decide, by decide⟩

/-- C9 as amended: the auto-run compares the stored `lastRunDate` with
the *UTC* calendar date (`toISOString`): the startup listener fires iff
the local hour is at/after 8 and the stored date differs from today's
UTC date; the daily alarm listener ignores foreign alarms and fires iff
the stored date differs from today's UTC date (with no time-of-day
check); and neither fires when the stored date equals today's UTC date. -/
theorem spec_c9_amended (now : Instant) (stored : StoredLocal) :
    ((onStartupAutoRun now stored).isSome ↔
      8 ≤ now.localHour ∧ stored.lastRunDate ≠ some now.utcDate) ∧
    ((onAlarmAutoRun "dailyBooking" now stored).isSome ↔
      stored.lastRunDate ≠ some now.utcDate) ∧
    (∀ name : String, name ≠ "dailyBooking" → onAlarmAutoRun name now stored = Option.none) ∧
    (stored.lastRunDate = some now.utcDate →
      onStartupAutoRun now stored = Option.none ∧
      onAlarmAutoRun "dailyBooking" now stored = Option.none) := by
  refine ⟨?_, ?_, ?_, ?_⟩
  · by_cases h1 : 8 ≤ now.localHour
    · by_cases h2 : stored.lastRunDate = some now.utcDate <;>
        simp [onStartupAutoRun, getTodayString, h1, h2]
    · simp [onStartupAutoRun, h1]
  · by_cases h2 : stored.lastRunDate = some now.utcDate <;>
      simp [onAlarmAutoRun, getTodayString, h2]
  · intro name hname
    simp [onAlarmAutoRun, hname]
  · intro h
    simp [onStartupAutoRun, onAlarmAutoRun, getTodayString, h]

theorem spec_c9_witness :
    (("someOtherAlarm" : String) ≠ "dailyBooking") ∧
    onAlarmAutoRun "someOtherAlarm" startupInstant ⟨Option.none, Option.none⟩ = Option.none :=
  ⟨by decide,
   (spec_c9_amended startupInstant ⟨Option.none, Option.none⟩).2.2.1 "someOtherAlarm" (by decide)⟩

/-- C10: every BOOKING_DONE emitted by `runBulkBooking` reports a total
equal to the length of the accompanying bookings list, and both equal
the number of surviving candidates actually clicked — candidates skipped
at click time (disabled or detached) contribute neither. -/
theorem spec_c10 (inj : Nat → Option String) (href : String) (page : List PageButton)
    (days : List Nat) (t : Nat) (bs : List BookingRecord)
    (h : Ev.done t bs ∈ (runBulkBooking inj href page days).1) :
    t = bs.length ∧
    t = ((dayFilter days (findScheduleButtons page)).filter clickable).length := by
  by_cases h1 : (findScheduleButtons page).isEmpty = true
  · exfalso
    simp [runBulkBooking, h1] at h
    simpa [evIsLog] using introLogs_isLog href _ h
  · by_cases h2 : (dayFilter days (findScheduleButtons page)).isEmpty = true
    · exfalso
      simp [runBulkBooking, h1, h2] at h
      rcases h with h | h
      · simpa [evIsLog] using introLogs_isLog href _ h
      · simpa [evIsLog] using dayFilterLogsAux_isLog days _ 0 _ h
    · rcases h3 : (clickPhase inj (dayFilter days (findScheduleButtons page)).length
        (dayFilter days (findScheduleButtons page)) 0 0).2.2.2 with _ | m
      · simp [runBulkBooking, h1, h2, h3] at h
        rcases h with h | h | h | h
        · simpa [evIsLog] using introLogs_isLog href _ h
        · simpa [evIsLog] using dayFilterLogsAux_isLog days _ 0 _ h
        · exact absurd (clickPhase_evs_valid inj _ _ 0 0 (by simp) _ h).2 (by simp [evIsDone])
        · obtain ⟨hc1, hc2⟩ := clickPhase_counts inj
            (dayFilter days (findScheduleButtons page)).length
            (dayFilter days (findScheduleButtons page)) 0 0 h3
          obtain ⟨ht, hbs⟩ := h
          subst ht
          subst hbs
          exact ⟨by omega, by omega⟩
      · exfalso
        simp [runBulkBooking, h1, h2, h3] at h
        rcases h with h | h | h
        · simpa [evIsLog] using introLogs_isLog href _ h
        · simpa [evIsLog] using dayFilterLogsAux_isLog days _ 0 _ h
        · exact absurd (clickPhase_evs_valid inj _ _ 0 0 (by simp) _ h).2 (by simp [evIsDone])

theorem spec_c10_witness :
    Ev.done 1 [⟨"Mon", "Booked"⟩] ∈ (runBulkBooking injNone href0 pageTwo [1, 2, 3, 4, 5]).1 ∧
    (1 = ([(⟨"Mon", "Booked"⟩ : BookingRecord)] : List BookingRecord).length ∧
     1 = ((dayFilter [1, 2, 3, 4, 5] (findScheduleButtons pageTwo)).filter clickable).length) :=
  ⟨by decide, spec_c10 injNone href0 pageTwo [1, 2, 3, 4, 5] 1 [⟨"Mon", "Booked"⟩] (by decide)⟩
